import Mathlib

/-!
Verification of the expert-search core of the onfrontiers-cerca-poc
repository against its natural-language specification.

The Python/SQL sources are shallowly embedded as Lean definitions:

* `src/config.py` — static search configuration (`SEARCH_CONFIG`,
  `ATTRIBUTE_WEIGHTS`, `SEARCHABLE_ATTRIBUTE_TYPES`).
* `src/routes/search.py` — request parsing, `merge_config` /
  `validate_attribute_weights`, the pgvector nearest-neighbour
  `similarity_query`, the scoring loop, ranking and pagination of
  `ExpertSearchResource.post`.
* `src/lib/embedding_service.py` — `EmbeddingService.cosine_similarity`.

Python floats and SQL numerics are modelled as exact rationals where the
code only performs field/order operations, and as real numbers where the
code uses fractional powers (`**`) or square roots.  Machine overflow does
not arise (Python ints are unbounded, float range is not exercised by the
claims).  Fallible steps are modelled with `Option`; returning a response
with an HTTP status models the code's early `return` statements.
-/

/-! ### JSON-ish override values (`src/routes/search.py` `merge_config`)

A settings override arrives as a decoded JSON value.  We model the value
domain needed by the claims: integers, floats, `null`, and lists of
`{name, weight}` objects (the shape used by `attribute_weights`).
Numeric strings are not modelled; booleans (which Python treats as ints)
are likewise omitted.  On this domain the Lean coercions agree exactly
with Python's `float(...)` / `int(...)` calls wrapped in
`try/except (ValueError, TypeError)`. -/
inductive PyVal where
  | int_ (n : ℤ)
  | float_ (q : ℚ)
  | none_
  | vlist (items : List (String × PyVal))
deriving Repr

/-- Python `float(value)` inside the `merge_config` try/except:
ints and floats coerce, `None` and lists raise (modelled as `none`). -/
def coerceFloat : PyVal → Option ℚ
  | .int_ n => some (n : ℚ)
  | .float_ q => some q
  | .none_ => none
  | .vlist _ => none

/-- Python `int(float)` truncates toward zero. -/
def pyTrunc (q : ℚ) : ℤ := if 0 ≤ q then ⌊q⌋ else ⌈q⌉

/-- Python `int(value)` inside the `merge_config` try/except. -/
def coerceInt : PyVal → Option ℤ
  | .int_ n => some n
  | .float_ q => some (pyTrunc q)
  | .none_ => none
  | .vlist _ => none

/-- Range clamp of `merge_config` (`search.py` lines 78-81): first the
`min` bound is applied, then the `max` bound. -/
def clampTo {α : Type} [LinearOrder α] (v lo hi : α) : α :=
  let v1 := if v < lo then lo else v
  if hi < v1 then hi else v1

/-- `SEARCHABLE_ATTRIBUTE_TYPES` from `src/config.py`. -/
def SEARCHABLE_ATTRIBUTE_TYPES : List String :=
  ["agency", "role", "seniority", "skill", "program"]

/-- `ATTRIBUTE_WEIGHTS` from `src/config.py`, as (name, weight) pairs. -/
def ATTRIBUTE_WEIGHTS : List (String × ℚ) :=
  [("agency", 1.5), ("role", 2.0), ("seniority", 1.0),
   ("skill", 1.8), ("program", 1.2)]

/-- The search configuration dictionary.  The Python `SEARCH_CONFIG` dict
always carries exactly these keys, so it is modelled as a structure; a
merged configuration therefore contains every field by construction,
mirroring `merged = default_config.copy()` in `merge_config`. -/
structure SearchConfig where
  max_attributes_per_type : ℤ
  scoring_base : ℚ
  recency_decay_factor : ℚ
  default_page_size : ℤ
  max_page_size : ℤ
  use_cosine_similarity : Bool
  similarity_threshold : ℚ
  max_similar_attributes : ℤ
  similarity_weight : ℚ
  attribute_weights : List (String × ℚ)
deriving Repr, DecidableEq

/-- `SEARCH_CONFIG` from `src/config.py`. -/
def SEARCH_CONFIG : SearchConfig :=
  { max_attributes_per_type := 3
    scoring_base := 1.1
    recency_decay_factor := 0.1
    default_page_size := 20
    max_page_size := 100
    use_cosine_similarity := true
    similarity_threshold := 0.4
    max_similar_attributes := 20
    similarity_weight := 1.0
    attribute_weights := ATTRIBUTE_WEIGHTS }

/-- Update an association list in place, appending when the key is new
(Python dict assignment `weight_dict[attr_name] = weight_value`). -/
def updateAssoc (l : List (String × ℚ)) (k : String) (v : ℚ) : List (String × ℚ) :=
  match l with
  | [] => [(k, v)]
  | (k', v') :: rest =>
    if k' = k then (k', v) :: rest else (k', v') :: updateAssoc rest k v

/-- `validate_attribute_weights` (`search.py` lines 88-110): a non-list
override keeps the defaults; each `{name, weight}` item whose name is a
searchable type has its weight coerced to float and clamped with
`max(0.0, min(10.0, w))`; an item whose weight fails coercion is skipped
individually.  Items that are not dicts with `name` and `weight` keys
(also skipped by the code) are outside the modelled value domain. -/
def validate_attribute_weights (v : PyVal) (dw : List (String × ℚ)) :
    List (String × ℚ) :=
  match v with
  | .vlist items =>
    items.foldl
      (fun wd item =>
        if item.1 ∈ SEARCHABLE_ATTRIBUTE_TYPES then
          match coerceFloat item.2 with
          | some q => updateAssoc wd item.1 (max 0 (min 10 q))
          | none => wd
        else wd)
      dw
  | _ => dw

/-- One iteration of the `merge_config` override loop
(`search.py` lines 63-84). -/
def applyOverride (cfg : SearchConfig) (kv : String × PyVal) : SearchConfig :=
  if kv.1 = "attribute_weights" then
    { cfg with attribute_weights :=
        validate_attribute_weights kv.2 cfg.attribute_weights }
  else if kv.1 = "similarity_threshold" then
    match coerceFloat kv.2 with
    | none => cfg
    | some q => { cfg with similarity_threshold := clampTo q 0 1 }
  else if kv.1 = "max_similar_attributes" then
    match coerceInt kv.2 with
    | none => cfg
    | some n => { cfg with max_similar_attributes := clampTo n 1 100 }
  else if kv.1 = "max_attributes_per_type" then
    match coerceInt kv.2 with
    | none => cfg
    | some n => { cfg with max_attributes_per_type := clampTo n 1 10 }
  else if kv.1 = "scoring_base" then
    match coerceFloat kv.2 with
    | none => cfg
    | some q => { cfg with scoring_base := clampTo q 1 2 }
  else if kv.1 = "recency_decay_factor" then
    match coerceFloat kv.2 with
    | none => cfg
    | some q => { cfg with recency_decay_factor := clampTo q 0 1 }
  else if kv.1 = "similarity_weight" then
    match coerceFloat kv.2 with
    | none => cfg
    | some q => { cfg with similarity_weight := clampTo q 0 2 }
  else cfg

/-- `merge_config` (`search.py` lines 49-86): fold the overrides, in
order, onto a copy of the defaults. -/
def merge_config (d : SearchConfig) (overrides : List (String × PyVal)) :
    SearchConfig :=
  overrides.foldl applyOverride d

/-! ### Recency multiplier (`search.py` scoring_query, line 298)

The SQL expression `GREATEST(0.1, 1 - :recency_factor *
(CURRENT_DATE - e.end_date) / 365.0)`, with `days` standing for the
integer day difference `CURRENT_DATE - e.end_date`. -/
def recency_multiplier (factor days : ℚ) : ℚ :=
  max 0.1 (1 - factor * days / 365)

/-! ### Cosine similarity (`src/lib/embedding_service.py` lines 76-121)

Embedding vectors are lists of reals.  `np.linalg.norm` is the Euclidean
norm, `np.dot` the dot product.  The function's outer try/except and its
explicit guards make it total: in Lean this is a total function, so the
"never raises" part of the spec is captured by well-definedness. -/

/-- Dot product of two vectors (`np.dot`; on equal-length vectors this is
the sum of pointwise products). -/
noncomputable def dotProduct (a b : List ℝ) : ℝ :=
  (List.zipWith (fun x y => x * y) a b).sum

/-- Euclidean norm (`np.linalg.norm`). -/
noncomputable def l2norm (a : List ℝ) : ℝ :=
  Real.sqrt ((a.map fun x => x * x).sum)

/-- `EmbeddingService.cosine_similarity`: dimension mismatch returns 0.0
(after logging a warning), a zero-norm operand returns 0.0, otherwise the
quotient `dot / (norm1 * norm2)`. -/
noncomputable def cosine_similarity (e1 e2 : List ℝ) : ℝ :=
  if e1.length ≠ e2.length then 0
  else if l2norm e1 = 0 ∨ l2norm e2 = 0 then 0
  else dotProduct e1 e2 / (l2norm e1 * l2norm e2)

/-! ### Attribute store and the nearest-neighbour query
(`search.py` lines 196-234)

`similarity_query` is the SQL statement

  SELECT id, name, type, summary,
         (1 - (embedding <=> :q)) AS similarity
  FROM attribute
  WHERE type = :attr_type AND embedding IS NOT NULL
  ORDER BY embedding <=> :q
  LIMIT 1

where `<=>` is pgvector's cosine-distance operator
`1 - dot(a,b)/(norm(a)*norm(b))`.  Note that the query applies no
similarity threshold: it always returns the nearest stored attribute of
the requested type, whatever its similarity. -/

/-- A row of the `attribute` table (fields used by the search path). -/
structure DBAttribute where
  id : ℕ
  name : String
  type : String
  summary : String
  embedding : Option (List ℝ)

/-- pgvector cosine distance between a stored embedding and the query
embedding. -/
noncomputable def pgCosDistance (a b : List ℝ) : ℝ :=
  1 - dotProduct a b / (l2norm a * l2norm b)

/-- Rows satisfying the WHERE clause: requested type, non-null
embedding. -/
def typedCandidates (attrs : List DBAttribute) (t : String) : List DBAttribute :=
  attrs.filter fun a => a.type == t && a.embedding.isSome

/-- Cosine distance of an attribute row to the query embedding. -/
noncomputable def attrDist (emb : List ℝ) (a : DBAttribute) : ℝ :=
  pgCosDistance (a.embedding.getD []) emb

/-- `ORDER BY dist LIMIT 1`: the first row attaining the minimal value of
`f` (SQL leaves the order of ties unspecified; the model picks the first
in table order). -/
noncomputable def minBy (f : DBAttribute → ℝ) : List DBAttribute → Option DBAttribute
  | [] => none
  | a :: rest =>
    match minBy f rest with
    | none => some a
    | some b => if f b < f a then some b else some a

/-- Result row of `similarity_query`: id, name and the reported
similarity `1 - distance`. -/
structure MatchRow where
  id : ℕ
  name : String
  similarity : ℝ

/-- The `similarity_query` round trip for one term embedding. -/
noncomputable def similarity_query (attrs : List DBAttribute) (t : String)
    (emb : List ℝ) : Option MatchRow :=
  match minBy (attrDist emb) (typedCandidates attrs t) with
  | none => none
  | some a => some ⟨a.id, a.name, 1 - attrDist emb a⟩

/-- Resolution of one extracted term (`search.py` lines 192-234).  The
effective configuration — including `similarity_threshold`, bound at line
145 — is in scope in the source, but the matching query never consults
it; the parameter is kept to state that fact. -/
noncomputable def resolveTerm (attrs : List DBAttribute) (_cfg : SearchConfig)
    (t : String) (emb : List ℝ) : Option MatchRow :=
  similarity_query attrs t emb

/-! ### Experience scoring (`search.py` lines 288-364)

The scoring SQL returns one row per (experience, matched attribute id)
pair, ordered by `e.expert_id, e.id`; the Python loop then accumulates a
per-expert total in the insertion-ordered dict `expert_scores`. -/

/-- A row of `scoring_query` (fields used by the scoring loop).
`duration_years` is `(end_date - start_date) / 365.0` and
`recency_multiplier` is the `GREATEST` expression, both computed in
SQL. -/
structure ScoreRow where
  expert_id : ℕ
  experience_id : ℕ
  attribute_id : ℕ
  duration_years : ℝ
  recency_multiplier : ℝ

/-- Similarity and weight attached to one resolved attribute id
(the `attr_similarity` dict built at lines 277-285). -/
structure AttrInfo where
  similarity : ℝ
  weight : ℝ

/-- Python `attr_similarity.get(attr_id, {'similarity': 1.0,
'weight': 1.0})` (line 321). -/
noncomputable def lookupAttr (m : List (ℕ × AttrInfo)) (id : ℕ) : AttrInfo :=
  match m.find? (fun p => p.1 == id) with
  | some p => p.2
  | none => ⟨1, 1⟩

/-- `base_score` (lines 325-329): duration × recency × similarity. -/
noncomputable def base_score (row : ScoreRow) (info : AttrInfo) : ℝ :=
  row.duration_years * row.recency_multiplier * info.similarity

/-- Geometric contribution of one row (lines 331-338): weight 0 gives
0.0, otherwise `base_score ** (weight / 2.0)` via the real power
function, the exact-arithmetic reading of Python float `**`. -/
noncomputable def exp_score (row : ScoreRow) (info : AttrInfo) : ℝ :=
  if info.weight = 0 then 0
  else Real.rpow (base_score row info) (info.weight / 2)

/-- Dict accumulation `expert_scores[expert_id] += exp_score`
(lines 340-345): update in place when the key exists, append otherwise —
CPython dicts preserve insertion order. -/
noncomputable def addScore : List (ℕ × ℝ) → ℕ → ℝ → List (ℕ × ℝ)
  | [], e, s => [(e, s)]
  | (e', s') :: rest, e, s =>
    if e' = e then (e', s' + s) :: rest else (e', s') :: addScore rest e s

/-- One iteration of the scoring loop (lines 315-345) restricted to the
score accumulation. -/
noncomputable def scoreStep (m : List (ℕ × AttrInfo)) (acc : List (ℕ × ℝ))
    (r : ScoreRow) : List (ℕ × ℝ) :=
  addScore acc r.expert_id (exp_score r (lookupAttr m r.attribute_id))

/-- The whole scoring loop: fold the rows into the insertion-ordered
`expert_scores` association list. -/
noncomputable def buildScores (m : List (ℕ × AttrInfo)) (rows : List ScoreRow) :
    List (ℕ × ℝ) :=
  rows.foldl (scoreStep m) []

/-- Stable insertion keeping the list sorted by score descending: the new
element goes after every element whose score is ≥ its own. -/
noncomputable def insertDesc (x : ℕ × ℝ) : List (ℕ × ℝ) → List (ℕ × ℝ)
  | [] => [x]
  | y :: ys => if x.2 ≤ y.2 then y :: insertDesc x ys else x :: y :: ys

/-- `sorted(expert_scores.items(), key=lambda x: x[1], reverse=True)`
(line 364).  Python's sort is stable; a stable descending sort is modelled
as left-to-right stable insertion. -/
noncomputable def sortDesc (l : List (ℕ × ℝ)) : List (ℕ × ℝ) :=
  l.foldl (fun acc x => insertDesc x acc) []

/-- Clamp of one slice bound against a list: negative indices count from
the end, and both bounds are clamped into `[0, len]`. -/
def pySliceBound {α : Type} (l : List α) (a : ℤ) : ℤ :=
  if a < 0 then max 0 ((l.length : ℤ) + a) else min a (l.length : ℤ)

/-- Python list slicing `l[a:b]` with integer (possibly negative)
bounds. -/
def pySlice {α : Type} (l : List α) (a b : ℤ) : List α :=
  (l.drop (pySliceBound l a).toNat).take
    (pySliceBound l b - pySliceBound l a).toNat

/-- The response fields the claims are about.  `experts` carries the
paginated `(expert_id, total_score)` ranking; the optional pagination
metadata is only present on the main success path. -/
structure SearchResponse where
  experts : List (ℕ × ℝ)
  total_experts : ℕ
  status : ℕ
  page : Option ℤ := none
  page_size : Option ℤ := none
  total_pages : Option ℤ := none

/-- Steps 3-4 of `ExpertSearchResource.post` after attribute resolution
(lines 256-of the source to the final response): the empty-resolution
short-circuit (258-269), scoring, ranking, pagination (363-368), the
empty-page early return (374-383) and the pagination metadata of the
final response (575, 585-587, with Python `//` as `Int.fdiv`).  The
returned boolean records whether the scoring SQL query was issued. -/
noncomputable def scorePhase (ids : List ℕ) (attrSim : List (ℕ × AttrInfo))
    (rows : List ScoreRow) (page pageSize : ℤ) : SearchResponse × Bool :=
  if ids = [] then
    ({ experts := [], total_experts := 0, status := 200 }, false)
  else if pySlice (sortDesc (buildScores attrSim rows))
      ((page - 1) * pageSize) ((page - 1) * pageSize + pageSize) = [] then
    ({ experts := [], total_experts := 0, status := 200 }, true)
  else
    ({ experts := pySlice (sortDesc (buildScores attrSim rows))
         ((page - 1) * pageSize) ((page - 1) * pageSize + pageSize),
       total_experts := (buildScores attrSim rows).length, status := 200,
       page := some page, page_size := some pageSize,
       total_pages := some (Int.fdiv
         (((buildScores attrSim rows).length : ℤ) + pageSize - 1) pageSize) },
     true)

/-! ### Request parsing and the full pipeline
(`search.py` lines 14-46 and 112-255) -/

/-- List-of-characters test for `leadsWith pat s`: `pat` is an initial
segment of `s`. -/
def leadsWith : List Char → List Char → Bool
  | [], _ => true
  | _ :: _, [] => false
  | a :: as, b :: bs => a == b && leadsWith as bs

/-- Occurrence of `pat` as a contiguous run anywhere in `s`. -/
def containsSubAux (pat : List Char) : List Char → Bool
  | [] => leadsWith pat []
  | c :: rest => leadsWith pat (c :: rest) || containsSubAux pat rest

/-- Python substring membership `pat in s` on strings. -/
def containsSub (pat s : String) : Bool :=
  containsSubAux pat.toList s.toList

/-- Python `not text.strip()`: the text is empty or all whitespace. -/
def isBlank (s : String) : Bool :=
  s.toList.all fun c => c.isWhitespace

/-- An incoming HTTP request (transport fields used by `post`).  JSON
body fields are modelled directly; `page` and `page_size` are `Option`
because `data.get` falls back to a default when the key is absent.  Page
numbers are modelled as integers (non-integer JSON values for them would
raise later in Python and are outside the modelled domain). -/
structure SearchRequest where
  content_type : String
  raw_text : String
  json_text : String
  json_page : Option ℤ
  json_page_size : Option ℤ
  json_settings : List (String × PyVal)

/-- Content-type dispatch (`search.py` lines 23-43): a JSON request reads
text, page (default 1), page size (default, then capped by
`max_page_size` via `min`) and settings from the body; a plain-text
request takes the raw body as text with page 1, the default page size and
no settings; anything else is a 400. -/
def parseParams (r : SearchRequest) :
    Option (String × ℤ × ℤ × List (String × PyVal)) :=
  if containsSub "application/json" r.content_type then
    some (r.json_text, r.json_page.getD 1,
      min (r.json_page_size.getD SEARCH_CONFIG.default_page_size)
        SEARCH_CONFIG.max_page_size,
      r.json_settings)
  else if containsSub "text/plain" r.content_type then
    some (r.raw_text, 1, SEARCH_CONFIG.default_page_size, [])
  else none

/-- `get_attribute_weight` (lines 117-123): first matching name in the
effective weights, defaulting to 1.0. -/
def get_attribute_weight (cfg : SearchConfig) (t : String) : ℚ :=
  match cfg.attribute_weights.find? (fun p => p.1 == t) with
  | some p => p.2
  | none => 1

/-- Term selection (lines 147-161): for each searchable type in order,
take at most the first extracted term (`[:1]`) and keep it, stripped,
when non-blank.  The code routes terms through a `term_to_type` dict
keyed by the stripped term; the model keeps (type, term) pairs directly,
so the code's collision when the same term is extracted for two types is
outside the modelled domain. -/
def selectTerms (llm : List (String × List String)) : List (String × String) :=
  SEARCHABLE_ATTRIBUTE_TYPES.foldr
    (fun t acc =>
      match llm.find? (fun p => p.1 == t) with
      | some (_, term :: _) =>
        if term.trim = "" then acc else (t, term.trim) :: acc
      | _ => acc)
    []

/-- Resolution of every selected term against the attribute table
(lines 192-234), keeping the matched rows with their type. -/
noncomputable def resolveAll (attrs : List DBAttribute) (cfg : SearchConfig)
    (terms : List (String × String)) (embed : String → List ℝ) :
    List (String × MatchRow) :=
  terms.foldr
    (fun p acc =>
      match resolveTerm attrs cfg p.1 (embed p.2) with
      | some m => (p.1, m) :: acc
      | none => acc)
    []

/-- `all_attribute_ids` (lines 240-243). -/
def resolvedIds (ms : List (String × MatchRow)) : List ℕ :=
  ms.map fun p => p.2.id

/-- The `attr_similarity` lookup built at lines 277-285. -/
noncomputable def buildAttrSim (cfg : SearchConfig)
    (ms : List (String × MatchRow)) : List (ℕ × AttrInfo) :=
  ms.map fun p => (p.2.id, ⟨p.2.similarity, ((get_attribute_weight cfg p.1 : ℚ) : ℝ)⟩)

/-- External collaborators of one request: the LLM extraction output
(per-type term lists), the order-preserving batch embedder, the attribute
table, and the rows the scoring SQL would return for the resolved ids. -/
structure SearchWorld where
  llm_terms : List (String × List String)
  embed : String → List ℝ
  attrs : List DBAttribute
  rows : List ScoreRow

/-- `ExpertSearchResource.post` end to end on the happy paths the claims
exercise: parse, blank-text check (line 45), config merge (line 113),
term selection and resolution, then the scoring phase.  The boolean
records whether the scoring SQL query was issued. -/
noncomputable def runSearch (r : SearchRequest) (w : SearchWorld) :
    SearchResponse × Bool :=
  match parseParams r with
  | none => ({ experts := [], total_experts := 0, status := 400 }, false)
  | some (txt, page, ps, settings) =>
    if isBlank txt then
      ({ experts := [], total_experts := 0, status := 400 }, false)
    else
      let cfg := merge_config SEARCH_CONFIG settings
      let ms := resolveAll w.attrs cfg (selectTerms w.llm_terms) w.embed
      scorePhase (resolvedIds ms) (buildAttrSim cfg ms) w.rows page ps

/-! ### Helper lemmas -/

/-- Merging a single override is one application of the override step. -/
theorem merge_config_single (d : SearchConfig) (kv : String × PyVal) :
    merge_config d [kv] = applyOverride d kv := rfl

/-- Unfolding of `addScore` on a cons cell. -/
theorem addScore_cons (e' : ℕ) (s' : ℝ) (rest : List (ℕ × ℝ)) (e : ℕ) (s : ℝ) :
    addScore ((e', s') :: rest) e s =
      if e' = e then (e', s' + s) :: rest else (e', s') :: addScore rest e s := rfl

/-- An update of an already-present expert id leaves the id sequence of
the score dict unchanged. -/
theorem addScore_fst_of_mem :
    ∀ (l : List (ℕ × ℝ)) (e : ℕ) (s : ℝ), e ∈ l.map Prod.fst →
      (addScore l e s).map Prod.fst = l.map Prod.fst := by
  intro l
  induction l with
  | nil => intro e s h; simp at h
  | cons p rest ih =>
    intro e s h
    obtain ⟨e', s'⟩ := p
    rw [addScore_cons]
    by_cases he : e' = e
    · simp [he]
    · have hrest : e ∈ rest.map Prod.fst := by
        rcases List.mem_cons.mp h with h1 | h1
        · exact absurd h1.symm he
        · exact h1
      simp [he, ih e s hrest]

/-- A new expert id is appended at the end of the score dict. -/
theorem addScore_fst_of_not_mem :
    ∀ (l : List (ℕ × ℝ)) (e : ℕ) (s : ℝ), e ∉ l.map Prod.fst →
      (addScore l e s).map Prod.fst = l.map Prod.fst ++ [e] := by
  intro l
  induction l with
  | nil => intro e s _; rfl
  | cons p rest ih =>
    intro e s h
    obtain ⟨e', s'⟩ := p
    rw [addScore_cons]
    have he : e' ≠ e := by
      intro hEq
      exact h (by simp [hEq])
    have hrest : e ∉ rest.map Prod.fst := by
      intro hmem
      exact h (by simp [hmem])
    simp [he, ih e s hrest]

/-- Unfolding of `minBy` on a cons cell. -/
theorem minBy_cons_eq (f : DBAttribute → ℝ) (a : DBAttribute)
    (rest : List DBAttribute) :
    minBy f (a :: rest) =
      match minBy f rest with
      | none => some a
      | some b => if f b < f a then some b else some a := rfl

/-- A `minBy` result is `none` exactly on the empty list. -/
theorem minBy_eq_none (f : DBAttribute → ℝ) :
    ∀ l, minBy f l = none ↔ l = [] := by
  intro l
  cases l with
  | nil => simp [minBy]
  | cons a rest =>
    cases h : minBy f rest with
    | none => simp [minBy_cons_eq, h]
    | some b =>
      simp only [minBy_cons_eq, h]
      split_ifs <;> simp

/-- A `minBy` result is a member of the list. -/
theorem minBy_mem (f : DBAttribute → ℝ) :
    ∀ l b, minBy f l = some b → b ∈ l := by
  intro l
  induction l with
  | nil => intro b h; simp [minBy] at h
  | cons a rest ih =>
    intro b h
    cases hr : minBy f rest with
    | none =>
      simp only [minBy_cons_eq, hr, Option.some_inj] at h
      exact h ▸ List.mem_cons_self _ _
    | some c =>
      simp only [minBy_cons_eq, hr] at h
      split_ifs at h with hlt
      · rw [Option.some_inj] at h
        exact List.mem_cons_of_mem _ (h ▸ ih c hr)
      · rw [Option.some_inj] at h
        exact h ▸ List.mem_cons_self _ _

/-- A `minBy` result attains the minimum of `f` over the list. -/
theorem minBy_min (f : DBAttribute → ℝ) :
    ∀ l b, minBy f l = some b → ∀ x ∈ l, f b ≤ f x := by
  intro l
  induction l with
  | nil => intro b _ x hx; simp at hx
  | cons a rest ih =>
    intro b h x hx
    cases hr : minBy f rest with
    | none =>
      have hrest : rest = [] := (minBy_eq_none f rest).mp hr
      subst hrest
      simp only [minBy_cons_eq, hr, Option.some_inj] at h
      simp at hx
      subst hx
      exact h ▸ le_refl _
    | some c =>
      simp only [minBy_cons_eq, hr] at h
      rcases List.mem_cons.mp hx with rfl | hx'
      · split_ifs at h with hlt
        · rw [Option.some_inj] at h
          exact h ▸ le_of_lt hlt
        · rw [Option.some_inj] at h
          exact h ▸ le_refl _
      · split_ifs at h with hlt
        · rw [Option.some_inj] at h
          exact h ▸ ih c hr x hx'
        · rw [Option.some_inj] at h
          exact h ▸ le_trans (not_lt.mp hlt) (ih c hr x hx')

/-- Ranking order of the response: strictly higher score first, ties by
ascending expert id. -/
def rankRel (a b : ℕ × ℝ) : Prop := b.2 < a.2 ∨ (a.2 = b.2 ∧ a.1 < b.1)

/-- Unfolding of `insertDesc` on a cons cell. -/
theorem insertDesc_cons (x y : ℕ × ℝ) (ys : List (ℕ × ℝ)) :
    insertDesc x (y :: ys) =
      if x.2 ≤ y.2 then y :: insertDesc x ys else x :: y :: ys := rfl

/-- Membership in an insertion result. -/
theorem insertDesc_mem (x z : ℕ × ℝ) :
    ∀ l, z ∈ insertDesc x l ↔ z = x ∨ z ∈ l := by
  intro l
  induction l with
  | nil => simp [insertDesc]
  | cons y ys ih =>
    rw [insertDesc_cons]
    split_ifs with h
    · simp only [List.mem_cons, ih]
      tauto
    · simp only [List.mem_cons]

/-- Inserting an element whose id exceeds every id already present keeps
the list sorted in the ranking order: it lands after every entry of
greater-or-equal score, so equal scores stay in id order. -/
theorem insertDesc_pairwise (x : ℕ × ℝ) :
    ∀ l, l.Pairwise rankRel → (∀ y ∈ l, y.1 < x.1) →
      (insertDesc x l).Pairwise rankRel := by
  intro l
  induction l with
  | nil => intro _ _; simp [insertDesc, rankRel]
  | cons y ys ih =>
    intro hp hid
    rcases List.pairwise_cons.mp hp with ⟨hy, hys⟩
    rw [insertDesc_cons]
    split_ifs with hle
    · refine List.pairwise_cons.mpr ⟨?_, ih hys
        (fun z hz => hid z (List.mem_cons_of_mem _ hz))⟩
      intro z hz
      rcases (insertDesc_mem x z ys).mp hz with rfl | hz'
      · rcases lt_or_eq_of_le hle with hlt | heq
        · exact Or.inl hlt
        · exact Or.inr ⟨heq.symm, hid y (List.mem_cons_self _ _)⟩
      · exact hy z hz'
    · push_neg at hle
      refine List.pairwise_cons.mpr ⟨?_, hp⟩
      intro z hz
      rcases List.mem_cons.mp hz with rfl | hz'
      · exact Or.inl hle
      · rcases hy z hz' with h1 | ⟨h2, _⟩
        · exact Or.inl (h1.trans hle)
        · exact Or.inl (by rw [← h2]; exact hle)

/-- Stable insertion sort invariant: folding elements of strictly
increasing id into a rank-sorted accumulator whose ids all precede the
pending ones yields a rank-sorted list. -/
theorem sortDesc_fold_pairwise :
    ∀ (l acc : List (ℕ × ℝ)),
      (l.map Prod.fst).Pairwise (· < ·) → acc.Pairwise rankRel →
      (∀ y ∈ acc, ∀ x ∈ l, y.1 < x.1) →
      (l.foldl (fun a x => insertDesc x a) acc).Pairwise rankRel := by
  intro l
  induction l with
  | nil => intro acc _ h _; simpa using h
  | cons x xs ih =>
    intro acc hl hacc hinv
    rw [List.map_cons] at hl
    rcases List.pairwise_cons.mp hl with ⟨hx, hxs⟩
    rw [List.foldl_cons]
    apply ih _ hxs
    · exact insertDesc_pairwise x acc hacc
        (fun y hy => hinv y hy x (List.mem_cons_self _ _))
    · intro y hy z hz
      rcases (insertDesc_mem x y acc).mp hy with rfl | hy'
      · exact hx z.1 (List.mem_map_of_mem _ hz)
      · exact hinv y hy' z (List.mem_cons_of_mem _ hz)

/-- When the unsorted score list carries strictly increasing expert ids,
the stable descending sort is ordered by `rankRel`. -/
theorem sortDesc_pairwise (l : List (ℕ × ℝ))
    (h : (l.map Prod.fst).Pairwise (· < ·)) :
    (sortDesc l).Pairwise rankRel :=
  sortDesc_fold_pairwise l [] h List.Pairwise.nil (by simp)

/-- Scoring-loop invariant: rows arriving in nondecreasing expert-id
order (the SQL `ORDER BY e.expert_id, e.id`) build a score dict whose
ids are strictly increasing, because each new id is appended at the
end. -/
theorem scores_fold_fst :
    ∀ (rows : List ScoreRow) (m : List (ℕ × AttrInfo)) (acc : List (ℕ × ℝ)),
      (rows.map ScoreRow.expert_id).Pairwise (· ≤ ·) →
      (acc.map Prod.fst).Pairwise (· < ·) →
      (∀ y ∈ acc.map Prod.fst, ∀ r ∈ rows, y ≤ r.expert_id) →
      ((rows.foldl (scoreStep m) acc).map Prod.fst).Pairwise (· < ·) := by
  intro rows
  induction rows with
  | nil => intro m acc _ h _; simpa using h
  | cons r rs ih =>
    intro m acc hrows hacc hinv
    rw [List.map_cons] at hrows
    rcases List.pairwise_cons.mp hrows with ⟨hr, hrs⟩
    rw [List.foldl_cons]
    have hstep : scoreStep m acc r =
        addScore acc r.expert_id (exp_score r (lookupAttr m r.attribute_id)) := rfl
    by_cases hmem : r.expert_id ∈ acc.map Prod.fst
    · apply ih m _ hrs
      · rw [hstep, addScore_fst_of_mem _ _ _ hmem]
        exact hacc
      · intro y hy z hz
        rw [hstep, addScore_fst_of_mem _ _ _ hmem] at hy
        exact hinv y hy z (List.mem_cons_of_mem _ hz)
    · apply ih m _ hrs
      · rw [hstep, addScore_fst_of_not_mem _ _ _ hmem, List.pairwise_append]
        refine ⟨hacc, List.pairwise_singleton _ _, ?_⟩
        intro y hy z hz
        simp only [List.mem_singleton] at hz
        subst hz
        exact lt_of_le_of_ne (hinv y hy r (List.mem_cons_self _ _))
          (fun hEq => hmem (hEq ▸ hy))
      · intro y hy z hz
        rw [hstep, addScore_fst_of_not_mem _ _ _ hmem] at hy
        rcases List.mem_append.mp hy with hy' | hy''
        · exact hinv y hy' z (List.mem_cons_of_mem _ hz)
        · simp only [List.mem_singleton] at hy''
          subst hy''
          exact hr z.expert_id (List.mem_map_of_mem _ hz)

/-- The score dict built from rows sorted by expert id has strictly
increasing ids. -/
theorem buildScores_fst (m : List (ℕ × AttrInfo)) (rows : List ScoreRow)
    (h : (rows.map ScoreRow.expert_id).Pairwise (· ≤ ·)) :
    ((buildScores m rows).map Prod.fst).Pairwise (· < ·) :=
  scores_fold_fst rows m [] h (by simp) (by simp)

/-- Insertion grows the list by one element. -/
theorem insertDesc_length (x : ℕ × ℝ) :
    ∀ l, (insertDesc x l).length = l.length + 1 := by
  intro l
  induction l with
  | nil => rfl
  | cons y ys ih =>
    rw [insertDesc_cons]
    split_ifs with h
    · simp [ih]
    · simp

/-- The stable sort preserves the number of experts. -/
theorem sortDesc_length (l : List (ℕ × ℝ)) :
    (sortDesc l).length = l.length := by
  suffices h : ∀ (l acc : List (ℕ × ℝ)),
      (l.foldl (fun a x => insertDesc x a) acc).length = acc.length + l.length by
    simpa using h l []
  intro l
  induction l with
  | nil => intro acc; simp
  | cons x xs ih =>
    intro acc
    rw [List.foldl_cons, ih, insertDesc_length, List.length_cons]
    omega

/-- Python slicing with nonnegative bounds is drop-then-take. -/
theorem pySlice_nonneg {α : Type} (l : List α) (a b : ℤ)
    (ha : 0 ≤ a) (hb : 0 ≤ b) :
    pySlice l a b = (l.drop a.toNat).take (b.toNat - a.toNat) := by
  unfold pySlice pySliceBound
  rw [if_neg (not_lt.mpr ha), if_neg (not_lt.mpr hb)]
  rcases le_or_lt a (l.length : ℤ) with hA | hA
  · rw [min_eq_left hA]
    rcases le_or_lt b (l.length : ℤ) with hB | hB
    · rw [min_eq_left hB]
      congr 1
      omega
    · rw [min_eq_right hB.le]
      rw [List.take_of_length_le, List.take_of_length_le]
      · rw [List.length_drop]
        omega
      · rw [List.length_drop]
        omega
  · rw [min_eq_right hA.le, Int.toNat_natCast, List.drop_length, List.take_nil,
      List.drop_eq_nil_of_le (by omega : l.length ≤ a.toNat), List.take_nil]

/-- Python `(t + ps - 1) // ps` is the ceiling of `t / ps`: the unique
integer `tp` with `ps * (tp - 1) < t ≤ ps * tp` (for `ps ≥ 1`,
`t ≥ 0`). -/
theorem fdiv_ceil_bounds (t ps : ℤ) (hps : 1 ≤ ps) (_ht : 0 ≤ t) :
    ps * (Int.fdiv (t + ps - 1) ps - 1) < t ∧
      t ≤ ps * Int.fdiv (t + ps - 1) ps := by
  rw [Int.fdiv_eq_ediv _ (by omega : (0:ℤ) ≤ ps)]
  have hne : ps ≠ 0 := by omega
  have hmod := Int.ediv_add_emod (t + ps - 1) ps
  have hlt := Int.emod_lt_of_pos (t + ps - 1) (by omega : (0:ℤ) < ps)
  have hge := Int.emod_nonneg (t + ps - 1) hne
  constructor
  · nlinarith [hmod, hlt, hge]
  · nlinarith [hmod, hlt, hge]

/-! ### Claim theorems -/

/-- C1: under the geometric weighting of `ExpertSearchResource.post`
(search.py lines 325-338), an effective type weight of 0 makes the
(experience, matched-attribute) contribution exactly 0.0 whatever the
duration, recency and similarity are, and an effective type weight of 2
makes the contribution exactly the base score
duration × recency × similarity. -/
theorem C1_geometric_weight_endpoints (row : ScoreRow) (sim : ℝ) :
    exp_score row ⟨sim, 0⟩ = 0 ∧
    exp_score row ⟨sim, 2⟩ =
      row.duration_years * row.recency_multiplier * sim := by
  constructor
  · simp [exp_score]
  · rw [exp_score, if_neg (by norm_num : ¬ (AttrInfo.mk sim 2).weight = 0)]
    show Real.rpow (base_score row ⟨sim, 2⟩) (2 / 2) = _
    rw [show (2:ℝ) / 2 = 1 by norm_num]
    exact (Real.rpow_one _).trans rfl

/-- C3: the recency multiplier of the scoring SQL
(`GREATEST(0.1, 1 - f * days / 365.0)`) is monotonically non-increasing
in the age `days = today - end_date` and never drops below 0.1, for any
decay factor in [0, 1]. -/
theorem C3_recency_monotone_floored (f d d' : ℚ)
    (h0 : 0 ≤ f) (h1 : f ≤ 1) (hd : d ≤ d') :
    recency_multiplier f d' ≤ recency_multiplier f d ∧
    (0.1 : ℚ) ≤ recency_multiplier f d := by
  refine ⟨max_le_max (le_refl _) ?_, le_max_left _ _⟩
  have hmul : f * d ≤ f * d' := mul_le_mul_of_nonneg_left hd h0
  linarith

/-- Witness for C3 at decay factor 1/2, ages 0 and 365 days. -/
theorem C3_witness :
    ((0:ℚ) ≤ 1/2 ∧ (1:ℚ)/2 ≤ 1 ∧ (0:ℚ) ≤ 365) ∧
    (recency_multiplier (1/2) 365 ≤ recency_multiplier (1/2) 0 ∧
      (0.1 : ℚ) ≤ recency_multiplier (1/2) 0) :=
  ⟨⟨by norm_num, by norm_num, by norm_num⟩,
    C3_recency_monotone_floored (1/2) 0 365 (by norm_num) (by norm_num)
      (by norm_num)⟩

/-- C6: `EmbeddingService.cosine_similarity` returns 0.0 on an embedding
dimension mismatch (the mismatch is logged, not raised) and 0.0 whenever
either operand has zero Euclidean norm; being a total Lean function of
its two arguments, it raises no exception on any input pair. -/
theorem C6_cosine_similarity_safe (e1 e2 : List ℝ) :
    (e1.length ≠ e2.length → cosine_similarity e1 e2 = 0) ∧
    ((l2norm e1 = 0 ∨ l2norm e2 = 0) → cosine_similarity e1 e2 = 0) := by
  constructor
  · intro h
    simp [cosine_similarity, h]
  · intro h
    by_cases hlen : e1.length ≠ e2.length
    · simp [cosine_similarity, hlen]
    · simp [cosine_similarity, hlen, h]

/-- Evaluation of the override step at the `similarity_threshold` key. -/
theorem applyOverride_sim_threshold (d : SearchConfig) (v : PyVal) :
    applyOverride d ("similarity_threshold", v) =
      match coerceFloat v with
      | none => d
      | some q => { d with similarity_threshold := clampTo q 0 1 } := rfl

/-- Evaluation of the override step at the `scoring_base` key. -/
theorem applyOverride_scoring_base (d : SearchConfig) (v : PyVal) :
    applyOverride d ("scoring_base", v) =
      match coerceFloat v with
      | none => d
      | some q => { d with scoring_base := clampTo q 1 2 } := rfl

/-- Evaluation of the override step at the `recency_decay_factor` key. -/
theorem applyOverride_recency (d : SearchConfig) (v : PyVal) :
    applyOverride d ("recency_decay_factor", v) =
      match coerceFloat v with
      | none => d
      | some q => { d with recency_decay_factor := clampTo q 0 1 } := rfl

/-- Evaluation of the override step at the `similarity_weight` key. -/
theorem applyOverride_sim_weight (d : SearchConfig) (v : PyVal) :
    applyOverride d ("similarity_weight", v) =
      match coerceFloat v with
      | none => d
      | some q => { d with similarity_weight := clampTo q 0 2 } := rfl

/-- Evaluation of the override step at the `max_similar_attributes`
key. -/
theorem applyOverride_max_similar (d : SearchConfig) (v : PyVal) :
    applyOverride d ("max_similar_attributes", v) =
      match coerceInt v with
      | none => d
      | some n => { d with max_similar_attributes := clampTo n 1 100 } := rfl

/-- Evaluation of the override step at the `max_attributes_per_type`
key. -/
theorem applyOverride_max_per_type (d : SearchConfig) (v : PyVal) :
    applyOverride d ("max_attributes_per_type", v) =
      match coerceInt v with
      | none => d
      | some n => { d with max_attributes_per_type := clampTo n 1 10 } := rfl

/-- C5: for every scalar setting override handled by `merge_config`, a
value that fails type coercion is silently dropped (the defaults are
retained unchanged), and a value that coerces is clamped into the
setting's declared range by the min/max bounds rather than rejected.
The merged output contains every configuration field by construction
(`merged = default_config.copy()` is modelled by the total
`SearchConfig` structure). -/
theorem C5_merge_config_coerce_clamp (d : SearchConfig) (v : PyVal) :
    (coerceFloat v = none →
      merge_config d [("similarity_threshold", v)] = d ∧
      merge_config d [("scoring_base", v)] = d ∧
      merge_config d [("recency_decay_factor", v)] = d ∧
      merge_config d [("similarity_weight", v)] = d) ∧
    (coerceInt v = none →
      merge_config d [("max_similar_attributes", v)] = d ∧
      merge_config d [("max_attributes_per_type", v)] = d) ∧
    (∀ q, coerceFloat v = some q →
      (merge_config d [("similarity_threshold", v)]).similarity_threshold =
        clampTo q 0 1 ∧
      (merge_config d [("scoring_base", v)]).scoring_base = clampTo q 1 2 ∧
      (merge_config d [("recency_decay_factor", v)]).recency_decay_factor =
        clampTo q 0 1 ∧
      (merge_config d [("similarity_weight", v)]).similarity_weight =
        clampTo q 0 2) ∧
    (∀ n, coerceInt v = some n →
      (merge_config d [("max_similar_attributes", v)]).max_similar_attributes =
        clampTo n 1 100 ∧
      (merge_config d [("max_attributes_per_type", v)]).max_attributes_per_type =
        clampTo n 1 10) := by
  refine ⟨?_, ?_, ?_, ?_⟩
  · intro h
    refine ⟨?_, ?_, ?_, ?_⟩
    · rw [merge_config_single, applyOverride_sim_threshold, h]
    · rw [merge_config_single, applyOverride_scoring_base, h]
    · rw [merge_config_single, applyOverride_recency, h]
    · rw [merge_config_single, applyOverride_sim_weight, h]
  · intro h
    refine ⟨?_, ?_⟩
    · rw [merge_config_single, applyOverride_max_similar, h]
    · rw [merge_config_single, applyOverride_max_per_type, h]
  · intro q h
    refine ⟨?_, ?_, ?_, ?_⟩
    · rw [merge_config_single, applyOverride_sim_threshold, h]
    · rw [merge_config_single, applyOverride_scoring_base, h]
    · rw [merge_config_single, applyOverride_recency, h]
    · rw [merge_config_single, applyOverride_sim_weight, h]
  · intro n h
    refine ⟨?_, ?_⟩
    · rw [merge_config_single, applyOverride_max_similar, h]
    · rw [merge_config_single, applyOverride_max_per_type, h]

/-- Witness for C5: a `None` override value is dropped for every scalar
key, and `similarity_threshold = 5.0` is clamped to the upper bound
1.0. -/
theorem C5_witness :
    (coerceFloat PyVal.none_ = none ∧
      merge_config SEARCH_CONFIG [("similarity_threshold", PyVal.none_)] =
        SEARCH_CONFIG) ∧
    (coerceFloat (PyVal.float_ 5) = some 5 ∧
      (merge_config SEARCH_CONFIG
          [("similarity_threshold", PyVal.float_ 5)]).similarity_threshold = 1) := by
  constructor
  · exact ⟨rfl,
      ((C5_merge_config_coerce_clamp SEARCH_CONFIG PyVal.none_).1 rfl).1⟩
  · refine ⟨rfl, ?_⟩
    have h := (((C5_merge_config_coerce_clamp SEARCH_CONFIG
      (PyVal.float_ 5)).2.2.1) 5 rfl).1
    rw [h]
    decide

/-- Witness for C6: a dimension mismatch and a zero-norm operand. -/
theorem C6_witness :
    (([(1:ℝ), 2].length ≠ [(1:ℝ)].length) ∧
      cosine_similarity [(1:ℝ), 2] [(1:ℝ)] = 0) ∧
    ((l2norm [(0:ℝ)] = 0 ∨ l2norm [(1:ℝ)] = 0) ∧
      cosine_similarity [(0:ℝ)] [(1:ℝ)] = 0) := by
  have hz : l2norm [(0:ℝ)] = 0 := by
    simp [l2norm]
  refine ⟨⟨by simp, (C6_cosine_similarity_safe [(1:ℝ), 2] [(1:ℝ)]).1 (by simp)⟩,
    ⟨Or.inl hz, (C6_cosine_similarity_safe [(0:ℝ)] [(1:ℝ)]).2 (Or.inl hz)⟩⟩

/-- C2 fails on the code: the batch resolver's `similarity_query`
(search.py lines 199-207) applies no similarity threshold — its own
comment says "(no similarity threshold)".  Concretely, with the default
configuration (threshold 0.4), a term embedding orthogonal to the only
stored "role" attribute (cosine similarity 0, below 0.4) is still
matched.  The claim said such a term yields no match. -/
theorem C2_counterexample_below_threshold_matched :
    resolveTerm [⟨1, "Program Manager", "role", "", some [(1:ℝ), 0]⟩]
        SEARCH_CONFIG "role" [(0:ℝ), 1] =
      some ⟨1, "Program Manager", 0⟩ ∧
    SEARCH_CONFIG.similarity_threshold = 0.4 ∧ ((0:ℝ) < 0.4) := by
  refine ⟨?_, rfl, by norm_num⟩
  have hd : attrDist [(0:ℝ), 1]
      ⟨1, "Program Manager", "role", "", some [(1:ℝ), 0]⟩ = 1 := by
    simp only [attrDist, pgCosDistance, dotProduct, l2norm, Option.getD_some]
    norm_num [Real.sqrt_one]
  rw [show resolveTerm [⟨1, "Program Manager", "role", "", some [(1:ℝ), 0]⟩]
      SEARCH_CONFIG "role" [(0:ℝ), 1] =
      some ⟨1, "Program Manager", 1 - attrDist [(0:ℝ), 1]
        ⟨1, "Program Manager", "role", "", some [(1:ℝ), 0]⟩⟩ from rfl, hd]
  norm_num

/-- C2 amended: attribute resolution accepts the nearest stored
attribute of the term's type regardless of the effective similarity
threshold.  A term yields a match exactly when some attribute of its
type has a non-null embedding, the returned row is a candidate of
minimal cosine distance (maximal similarity) with the reported
similarity `1 - distance`, and the result does not depend on the
configured threshold at all. -/
theorem C2_amended_nearest_match_ignores_threshold
    (attrs : List DBAttribute) (cfg cfg' : SearchConfig) (t : String)
    (emb : List ℝ) :
    resolveTerm attrs cfg t emb = resolveTerm attrs cfg' t emb ∧
    ((resolveTerm attrs cfg t emb).isSome ↔ typedCandidates attrs t ≠ []) ∧
    (∀ m, resolveTerm attrs cfg t emb = some m →
      ∃ a, a ∈ typedCandidates attrs t ∧
        m = ⟨a.id, a.name, 1 - attrDist emb a⟩ ∧
        ∀ b ∈ typedCandidates attrs t, attrDist emb a ≤ attrDist emb b) := by
  refine ⟨rfl, ?_, ?_⟩
  · unfold resolveTerm similarity_query
    cases h : minBy (attrDist emb) (typedCandidates attrs t) with
    | none =>
      simp only [h, Option.isSome_none]
      simp [(minBy_eq_none _ _).mp h]
    | some a =>
      simp only [h, Option.isSome_some]
      simp [List.ne_nil_of_mem (minBy_mem _ _ a h)]
  · intro m hm
    unfold resolveTerm similarity_query at hm
    cases h : minBy (attrDist emb) (typedCandidates attrs t) with
    | none => simp [h] at hm
    | some a =>
      simp only [h, Option.some_inj] at hm
      exact ⟨a, minBy_mem _ _ a h, hm.symm, minBy_min _ _ a h⟩

/-- Witness for C2 amended: a single stored "role" attribute is matched,
and it is the minimal-distance candidate. -/
theorem C2_amended_witness :
    (resolveTerm [⟨1, "Program Manager", "role", "", some [(1:ℝ), 0]⟩]
        SEARCH_CONFIG "role" [(0:ℝ), 1] =
      some ⟨1, "Program Manager", 1 - attrDist [(0:ℝ), 1]
        ⟨1, "Program Manager", "role", "", some [(1:ℝ), 0]⟩⟩) ∧
    (∃ a, a ∈ typedCandidates
        [⟨1, "Program Manager", "role", "", some [(1:ℝ), 0]⟩] "role" ∧
      (⟨1, "Program Manager", 1 - attrDist [(0:ℝ), 1]
          ⟨1, "Program Manager", "role", "", some [(1:ℝ), 0]⟩⟩ : MatchRow) =
        ⟨a.id, a.name, 1 - attrDist [(0:ℝ), 1] a⟩ ∧
      ∀ b ∈ typedCandidates
          [⟨1, "Program Manager", "role", "", some [(1:ℝ), 0]⟩] "role",
        attrDist [(0:ℝ), 1] a ≤ attrDist [(0:ℝ), 1] b) :=
  ⟨rfl,
    (C2_amended_nearest_match_ignores_threshold
      [⟨1, "Program Manager", "role", "", some [(1:ℝ), 0]⟩]
      SEARCH_CONFIG SEARCH_CONFIG "role" [(0:ℝ), 1]).2.2 _ rfl⟩

/-- C4: a search request whose extracted terms resolve to no database
attribute (empty resolved set) returns the 200 response with an empty
expert list and `total_experts = 0`, and the scoring SQL query is never
issued (second component `false`), exactly the short-circuit of
search.py lines 258-269. -/
theorem C4_empty_resolution_short_circuit (r : SearchRequest)
    (w : SearchWorld) (txt : String) (page ps : ℤ)
    (settings : List (String × PyVal))
    (hp : parseParams r = some (txt, page, ps, settings))
    (hb : isBlank txt = false)
    (hres : resolveAll w.attrs (merge_config SEARCH_CONFIG settings)
        (selectTerms w.llm_terms) w.embed = []) :
    runSearch r w =
      ({ experts := [], total_experts := 0, status := 200 }, false) := by
  unfold runSearch
  rw [hp]
  simp [hb, hres, resolvedIds, scorePhase]

/-- Witness for C4: a plain-text request against a world with no
extracted terms. -/
theorem C4_witness :
    (parseParams ⟨"text/plain", "hello", "", none, none, []⟩ =
        some ("hello", 1, 20, []) ∧
      isBlank "hello" = false ∧
      resolveAll ([] : List DBAttribute) (merge_config SEARCH_CONFIG [])
        (selectTerms []) (fun _ => []) = []) ∧
    runSearch ⟨"text/plain", "hello", "", none, none, []⟩
        ⟨[], fun _ => [], [], []⟩ =
      ({ experts := [], total_experts := 0, status := 200 }, false) :=
  ⟨⟨rfl, rfl, rfl⟩,
    C4_empty_resolution_short_circuit _ _ "hello" 1 20 [] rfl rfl rfl⟩

/-- C7: when the scoring rows arrive ordered by expert id (the SQL ends
`ORDER BY e.expert_id, e.id`), the ranking
`sorted(expert_scores.items(), key=score, reverse=True)` is descending
in total score with ties in ascending expert-id order: the
insertion-ordered dict lists ids increasingly and the stable sort
preserves that order among equal scores. -/
theorem C7_ranking_desc_ties_by_id (m : List (ℕ × AttrInfo))
    (rows : List ScoreRow)
    (h : (rows.map ScoreRow.expert_id).Pairwise (· ≤ ·)) :
    (sortDesc (buildScores m rows)).Pairwise rankRel :=
  sortDesc_pairwise _ (buildScores_fst m rows h)

/-- Witness for C7 on two rows for experts 1 and 2. -/
theorem C7_witness :
    ((List.map ScoreRow.expert_id
        [⟨1, 1, 5, (1:ℝ), 1⟩, ⟨2, 2, 6, 1, 1⟩]).Pairwise (· ≤ ·)) ∧
    (sortDesc (buildScores []
        [⟨1, 1, 5, (1:ℝ), 1⟩, ⟨2, 2, 6, 1, 1⟩])).Pairwise rankRel := by
  have h : (List.map ScoreRow.expert_id
      [⟨1, 1, 5, (1:ℝ), 1⟩, ⟨2, 2, 6, 1, 1⟩]).Pairwise (· ≤ ·) := by
    norm_num [List.pairwise_cons]
  exact ⟨h, C7_ranking_desc_ties_by_id [] _ h⟩

/-- Contribution of a unit row (duration 1 year, recency 1) under the
default attribute info: `1 ** (1/2) = 1`. -/
theorem exp_score_ones (e x a : ℕ) :
    exp_score ⟨e, x, a, 1, 1⟩ ⟨1, 1⟩ = 1 := by
  rw [exp_score, if_neg (by norm_num : ¬ (AttrInfo.mk 1 1).weight = 0)]
  show Real.rpow (base_score ⟨e, x, a, 1, 1⟩ ⟨1, 1⟩) (1 / 2) = 1
  rw [show base_score ⟨e, x, a, 1, 1⟩ ⟨1, 1⟩ = 1 by
    simp [base_score]]
  exact Real.one_rpow _

/-- C9 fails on the code: a scoring row whose attribute id is absent
from the resolved set is not skipped.  With an empty `attr_similarity`
dict and one row (attribute id 5, duration 1 year, recency 1), expert 1
ends with total score 1, not 0: the row contributed
`(1 × 1 × 1.0) ** (1.0/2)` through the fallback
`{'similarity': 1.0, 'weight': 1.0}` of line 321, and nothing is
logged. -/
theorem C9_counterexample_missing_attr_contributes :
    buildScores [] [⟨1, 1, 5, 1, 1⟩] = [(1, (1:ℝ))] := by
  rw [show buildScores [] [⟨1, 1, 5, 1, 1⟩] =
      [(1, exp_score ⟨1, 1, 5, 1, 1⟩ (⟨1, 1⟩ : AttrInfo))] from rfl,
    exp_score_ones]

/-- C9 amended: a scoring row whose attribute id is not in the resolved
attribute set is not skipped; it is scored with the fallback similarity
1.0 and weight 1.0 of `attr_similarity.get` and its contribution
`(duration × recency × 1.0) ** (1/2)` is added to the expert's total.
The request does not fail (the scoring loop is a total function); no
warning is logged. -/
theorem C9_amended_default_info_contribution (m : List (ℕ × AttrInfo))
    (acc : List (ℕ × ℝ)) (r : ScoreRow)
    (h : m.find? (fun p => p.1 == r.attribute_id) = none) :
    scoreStep m acc r =
      addScore acc r.expert_id
        (Real.rpow (r.duration_years * r.recency_multiplier * 1) (1 / 2)) := by
  unfold scoreStep
  rw [show lookupAttr m r.attribute_id = ⟨1, 1⟩ from by
    unfold lookupAttr; rw [h]]
  rw [exp_score, if_neg (by norm_num : ¬ (AttrInfo.mk 1 1).weight = 0)]
  rfl

/-- Witness for C9 amended: the empty resolved set does not contain the
row's attribute id 5, and the row's contribution is still added. -/
theorem C9_witness :
    (List.find? (fun p => p.1 == 5) ([] : List (ℕ × AttrInfo)) = none) ∧
    scoreStep [] [] ⟨1, 1, 5, (1:ℝ), 1⟩ =
      addScore [] 1 (Real.rpow ((1:ℝ) * 1 * 1) (1 / 2)) :=
  ⟨rfl, C9_amended_default_info_contribution [] [] ⟨1, 1, 5, 1, 1⟩ rfl⟩

/-- C8 fails on the code: neither `page` nor `page_size` is validated to
be ≥ 1 (search.py lines 29-31 only cap `page_size` from above).  With
two scored experts, `page = 0` and `page_size = 1`, the request is not
rejected: the offset becomes -1, the Python slice `sorted[-1:0]` is
empty, and the code returns a 200 response claiming an empty expert list
and `total_experts = 0` although two experts were scored — not any
validated page of the ranking. -/
theorem C8_counterexample_page_zero_accepted :
    scorePhase [5] [(5, ⟨1, 1⟩)] [⟨1, 1, 5, 1, 1⟩, ⟨2, 2, 5, 1, 1⟩] 0 1 =
      ({ experts := [], total_experts := 0, status := 200 }, true) ∧
    (buildScores [(5, ⟨1, 1⟩)] [⟨1, 1, 5, 1, 1⟩, ⟨2, 2, 5, 1, 1⟩]).length = 2 := by
  have hb : buildScores [(5, ⟨1, 1⟩)] [⟨1, 1, 5, 1, 1⟩, ⟨2, 2, 5, 1, 1⟩] =
      [(1, (1:ℝ)), (2, 1)] := by
    rw [show buildScores [(5, ⟨1, 1⟩)] [⟨1, 1, 5, 1, 1⟩, ⟨2, 2, 5, 1, 1⟩] =
        [(1, exp_score ⟨1, 1, 5, 1, 1⟩ (⟨1, 1⟩ : AttrInfo)),
         (2, exp_score ⟨2, 2, 5, 1, 1⟩ (⟨1, 1⟩ : AttrInfo))] from rfl,
      exp_score_ones, exp_score_ones]
  have hs : sortDesc [(1, (1:ℝ)), (2, 1)] = [(1, 1), (2, 1)] := by
    unfold sortDesc
    rw [List.foldl_cons, List.foldl_cons, List.foldl_nil,
      show insertDesc (1, (1:ℝ)) [] = [(1, 1)] from rfl,
      insertDesc_cons, if_pos (le_refl (1:ℝ))]
    rfl
  have hslice : pySlice [(1, (1:ℝ)), (2, 1)] (-1) 0 = [] := rfl
  constructor
  · unfold scorePhase
    rw [if_neg (by simp : ¬ ([5] : List ℕ) = []), hb, hs,
      show ((0:ℤ) - 1) * 1 = -1 by norm_num,
      show (-1:ℤ) + 1 = 0 by norm_num,
      if_pos hslice]
  · rw [hb]
    rfl

/-- Whenever the resolved id set is nonempty, the experts field of the
response is the Python slice of the ranking at
`[offset : offset + page_size]` (both non-early branches agree on
this). -/
theorem scorePhase_experts (ids : List ℕ) (attrSim : List (ℕ × AttrInfo))
    (rows : List ScoreRow) (page ps : ℤ) (hne : ids ≠ []) :
    (scorePhase ids attrSim rows page ps).1.experts =
      pySlice (sortDesc (buildScores attrSim rows))
        ((page - 1) * ps) ((page - 1) * ps + ps) := by
  unfold scorePhase
  rw [if_neg hne]
  split_ifs with hpag
  · exact hpag.symm
  · rfl

/-- Whenever the response carries a `total_pages` value, it is the
Python `(total + page_size - 1) // page_size`. -/
theorem scorePhase_total_pages (ids : List ℕ) (attrSim : List (ℕ × AttrInfo))
    (rows : List ScoreRow) (page ps : ℤ) (hne : ids ≠ []) (tp : ℤ)
    (htp : (scorePhase ids attrSim rows page ps).1.total_pages = some tp) :
    tp = Int.fdiv (((buildScores attrSim rows).length : ℤ) + ps - 1) ps := by
  unfold scorePhase at htp
  rw [if_neg hne] at htp
  split_ifs at htp with hpag
  exact (Option.some_inj.mp htp).symm

/-- C8 amended: page and page size are taken from the request without a
lower-bound check — `page` defaults to 1 and `page_size` is only capped
from above by the configured `max_page_size` via `min`.  For requests
with `page ≥ 1` and `page_size ≥ 1` the behaviour the claim describes
does hold: the returned slice of the ranked list starts at offset
`(page-1) × page_size`, has at most `page_size` entries, and whenever
the response carries `total_pages` it is the ceiling of the scored
expert count divided by `page_size`. -/
theorem C8_amended_pagination :
    (∀ r : SearchRequest,
      containsSub "application/json" r.content_type = true →
      parseParams r = some (r.json_text, r.json_page.getD 1,
        min (r.json_page_size.getD SEARCH_CONFIG.default_page_size)
          SEARCH_CONFIG.max_page_size, r.json_settings)) ∧
    (∀ (ids : List ℕ) (attrSim : List (ℕ × AttrInfo)) (rows : List ScoreRow)
        (page ps : ℤ), ids ≠ [] → 1 ≤ page → 1 ≤ ps →
      ((scorePhase ids attrSim rows page ps).1.experts =
        ((sortDesc (buildScores attrSim rows)).drop
          ((page - 1) * ps).toNat).take ps.toNat) ∧
      (scorePhase ids attrSim rows page ps).1.experts.length ≤ ps.toNat ∧
      (∀ tp, (scorePhase ids attrSim rows page ps).1.total_pages = some tp →
        ps * (tp - 1) < ((buildScores attrSim rows).length : ℤ) ∧
        ((buildScores attrSim rows).length : ℤ) ≤ ps * tp)) := by
  constructor
  · intro r h
    unfold parseParams
    rw [if_pos h]
  · intro ids attrSim rows page ps hne hpage hps
    have hoff : 0 ≤ (page - 1) * ps := mul_nonneg (by omega) (by omega)
    have hkey : pySlice (sortDesc (buildScores attrSim rows))
        ((page - 1) * ps) ((page - 1) * ps + ps) =
        ((sortDesc (buildScores attrSim rows)).drop
          ((page - 1) * ps).toNat).take ps.toNat := by
      rw [pySlice_nonneg _ _ _ hoff (by linarith)]
      congr 1
      generalize (page - 1) * ps = o at hoff
      omega
    refine ⟨?_, ?_, ?_⟩
    · rw [scorePhase_experts _ _ _ _ _ hne, hkey]
    · rw [scorePhase_experts _ _ _ _ _ hne, hkey, List.length_take]
      exact min_le_left _ _
    · intro tp htp
      rw [scorePhase_total_pages _ _ _ _ _ hne tp htp]
      exact fdiv_ceil_bounds _ ps hps (Int.natCast_nonneg _)

/-- Witness for C8 amended: a JSON request with page 2 and page size 10,
and a scoring phase at page 2, page size 10. -/
theorem C8_amended_witness :
    (containsSub "application/json" "application/json" = true ∧
      parseParams ⟨"application/json", "", "q", some 2, some 10, []⟩ =
        some ("q", 2, 10, [])) ∧
    (([5] : List ℕ) ≠ [] ∧ (1:ℤ) ≤ 2 ∧ (1:ℤ) ≤ 10 ∧
      (scorePhase [5] [] [] 2 10).1.experts =
        ((sortDesc (buildScores [] [])).drop
          (((2:ℤ) - 1) * 10).toNat).take (10:ℤ).toNat) := by
  refine ⟨⟨rfl, ?_⟩, ⟨by simp, by norm_num, by norm_num, ?_⟩⟩
  · exact C8_amended_pagination.1
      ⟨"application/json", "", "q", some 2, some 10, []⟩ rfl
  · exact (C8_amended_pagination.2 [5] [] [] 2 10 (by simp) (by norm_num)
      (by norm_num)).1

/-- C10: a request submitted as text/plain ignores any settings,
page and page-size values a client may supply: the parse step fixes
page 1, the default page size and an empty override set, so the response
is computed with the default configuration and is identical for any two
plain-text requests with the same body. -/
theorem C10_plain_text_ignores_overrides (r1 r2 : SearchRequest)
    (w : SearchWorld)
    (hct : r1.content_type = r2.content_type)
    (hj : containsSub "application/json" r1.content_type = false)
    (hpl : containsSub "text/plain" r1.content_type = true)
    (ht : r1.raw_text = r2.raw_text) :
    runSearch r1 w = runSearch r2 w ∧
    parseParams r1 =
      some (r1.raw_text, 1, SEARCH_CONFIG.default_page_size, []) ∧
    merge_config SEARCH_CONFIG [] = SEARCH_CONFIG := by
  have h1 : parseParams r1 =
      some (r1.raw_text, 1, SEARCH_CONFIG.default_page_size, []) := by
    simp [parseParams, hj, hpl]
  have h2 : parseParams r2 =
      some (r2.raw_text, 1, SEARCH_CONFIG.default_page_size, []) := by
    simp [parseParams, ← hct, hj, hpl]
  refine ⟨?_, h1, rfl⟩
  unfold runSearch
  rw [h1, h2, ht]

/-- Witness for C10: two plain-text requests with the same body but
different settings, page and page-size fields. -/
theorem C10_witness :
    (("text/plain" : String) = "text/plain" ∧
      containsSub "application/json" "text/plain" = false ∧
      containsSub "text/plain" "text/plain" = true ∧
      ("hello" : String) = "hello") ∧
    (runSearch ⟨"text/plain", "hello", "j", some 7, some 9,
        [("similarity_threshold", PyVal.float_ 5)]⟩
        ⟨[], fun _ => [], [], []⟩ =
      runSearch ⟨"text/plain", "hello", "k", some 2, some 3,
        [("recency_decay_factor", PyVal.none_)]⟩
        ⟨[], fun _ => [], [], []⟩ ∧
      parseParams ⟨"text/plain", "hello", "j", some 7, some 9,
        [("similarity_threshold", PyVal.float_ 5)]⟩ =
        some ("hello", 1, SEARCH_CONFIG.default_page_size, []) ∧
      merge_config SEARCH_CONFIG [] = SEARCH_CONFIG) :=
  ⟨⟨rfl, rfl, rfl, rfl⟩,
    C10_plain_text_ignores_overrides
      ⟨"text/plain", "hello", "j", some 7, some 9,
        [("similarity_threshold", PyVal.float_ 5)]⟩
      ⟨"text/plain", "hello", "k", some 2, some 3,
        [("recency_decay_factor", PyVal.none_)]⟩
      ⟨[], fun _ => [], [], []⟩ rfl rfl rfl rfl⟩
